import Mathlib

/-!
Verification of the cogutil concurrent containers and async dispatch
engines against their specification.

The C++ sources embedded here:
  - concurrent_queue.h   (FIFO container with cancellation and watermarks)
  - concurrent_set.h     (deduplicating sorted container with cancellation)
  - concurrent_stack.h   (LIFO container; both the watermark revision and
                          the older revision without watermarks appear in
                          the repository and both are modeled)
  - async_method_caller.h (async_caller dispatch engine)
  - the async_buffer dispatch engine over the set container

Each container is modeled as a pure state record mirroring the C++ data
members, and each operation as a function on that record translated
statement-by-statement from the source.  Blocking operations are modeled
in two ways: a single atomic evaluation at one observed state (the result
says whether the caller would block, throw Canceled, or complete), and,
for the condition-variable wait loops, a run over the list of states the
waiter observes at successive wakeups, exiting at the first state where
the loop guard fails, exactly as the source loop does.
-/

namespace CogUtil

/-- The typed Canceled error thrown by the concurrent containers
(struct Canceled in each container class). -/
inductive CErr where
  | canceled
deriving Repr, DecidableEq

namespace ConcurrentQueue

/-- State of a concurrent_queue: the protected std::queue (front of the
queue at the head of the list), the cancellation flag, the watermark
pair, and the count of pushers blocked in the watermark wait
(_blocked_pushers). -/
structure QState (α : Type) where
  the_queue : List α
  is_canceled : Bool
  high_watermark : Nat
  low_watermark : Nat
  blocked_pushers : Nat
deriving Repr, DecidableEq

/-- DEFAULT_HIGH_WATER_MARK = INT32_MAX. -/
def DEFAULT_HIGH_WATER_MARK : Nat := 2147483647

/-- DEFAULT_LOW_WATER_MARK = INT32_MAX - 65536. -/
def DEFAULT_LOW_WATER_MARK : Nat := 2147483647 - 65536

/-- A freshly constructed queue: empty, open, default watermarks, no
blocked pushers. -/
def mkQueue (α : Type) : QState α :=
  { the_queue := []
    is_canceled := false
    high_watermark := DEFAULT_HIGH_WATER_MARK
    low_watermark := DEFAULT_LOW_WATER_MARK
    blocked_pushers := 0 }

/-- Outcome of one call to push_impl, evaluated at one observed state. -/
inductive PushResult (α : Type) where
  /-- do_push ran; the Bool is should_cascade
  (was_blocked and _blocked_pushers > 0). -/
  | pushed (s : QState α) (cascade : Bool)
  /-- threw Canceled. -/
  | canceledErr
  /-- the pusher entered the watermark wait (queue at or above the high
  watermark and not canceled); the carried state is after
  _blocked_pushers++. -/
  | blockedEntry (s : QState α)
deriving Repr, DecidableEq

/-- Guard of the watermark wait loop in push_impl:
while (the_queue.size() >= _high_watermark and not is_canceled). -/
def pushWaitGuard (s : QState α) : Bool :=
  decide (s.high_watermark ≤ s.the_queue.length) && !s.is_canceled

/-- The body do_push of the copying push overload: the_queue.push(item)
appends at the back. -/
def do_push (item : α) (s : QState α) : QState α :=
  { s with the_queue := s.the_queue ++ [item] }

/-- One sequential evaluation of push: throw Canceled on a canceled
queue; enter the watermark wait when the queue is at or above the high
watermark; otherwise do_push.  A pusher that never blocked has
was_blocked = false, so should_cascade is false on this path. -/
def push (item : α) (s : QState α) : PushResult α :=
  if s.is_canceled then .canceledErr
  else if s.high_watermark ≤ s.the_queue.length then
    .blockedEntry { s with blocked_pushers := s.blocked_pushers + 1 }
  else
    .pushed (do_push item s) false

/-- The watermark wait of a blocked pusher, run over the states it
observes at successive wakeups of _watermark_cond: the loop exits at the
first observed state where the guard fails. -/
def watermarkWait (wakeups : List (QState α)) : Option (QState α) :=
  wakeups.find? (fun s => !(pushWaitGuard s))

/-- Completion of a blocked push from the state at which the watermark
wait exited: _blocked_pushers--, then if is_canceled throw Canceled,
else do_push; should_cascade = was_blocked and _blocked_pushers > 0,
and was_blocked is true on this path. -/
def resumePush (item : α) (s : QState α) : PushResult α :=
  let s1 := { s with blocked_pushers := s.blocked_pushers - 1 }
  if s1.is_canceled then .canceledErr
  else
    let s2 := do_push item s1
    .pushed s2 (decide (0 < s2.blocked_pushers))

/-- Outcome of one evaluation of the blocking pop at one observed
state. -/
inductive PopResult (α : Type) where
  /-- COMMON_POP_NOTIFY ran; the Bool is should_notify
  (_blocked_pushers > 0 and the size after the pop is below the low
  watermark). -/
  | popped (value : α) (s : QState α) (notified : Bool)
  /-- threw Canceled (the DO_THING of COMMON_COND_WAIT in pop). -/
  | canceledErr
  /-- the queue is empty and not canceled: the caller waits on
  the_cond. -/
  | wouldBlock
deriving Repr, DecidableEq

/-- One evaluation of pop at an observed state.  COMMON_COND_WAIT throws
Canceled as soon as is_canceled is observed, whether or not the queue is
empty; while the queue is empty and not canceled the caller waits; and
COMMON_POP_NOTIFY removes the front and computes should_notify from
_blocked_pushers and the post-pop size against the low watermark. -/
def pop (s : QState α) : PopResult α :=
  if s.is_canceled then .canceledErr
  else
    match s.the_queue with
    | [] => .wouldBlock
    | v :: rest =>
      .popped v { s with the_queue := rest }
        (decide (0 < s.blocked_pushers) && decide (rest.length < s.low_watermark))

/-- Guard of the condition wait in COMMON_COND_WAIT:
while (the_queue.empty() and not is_canceled). -/
def condWaitGuard (s : QState α) : Bool :=
  s.the_queue.isEmpty && !s.is_canceled

/-- A blocking pop viewed over the states observed at successive
wakeups of the_cond: the wait exits at the first state failing the
guard, and pop completes there. -/
def popRun (wakeups : List (QState α)) : Option (PopResult α) :=
  (wakeups.find? (fun s => !(condWaitGuard s))).map pop

/-- Outcome of the non-blocking try_get. -/
inductive TryGetResult (α : Type) where
  /-- returned true; COMMON_POP_NOTIFY ran as in pop. -/
  | got (value : α) (s : QState α) (notified : Bool)
  /-- returned false: the queue was empty. -/
  | empty
deriving Repr, DecidableEq

/-- try_get: no cancellation check at all; false on an empty queue,
otherwise it removes the front, even on a canceled queue. -/
def try_get (s : QState α) : TryGetResult α :=
  match s.the_queue with
  | [] => .empty
  | v :: rest =>
    .got v { s with the_queue := rest }
      (decide (0 < s.blocked_pushers) && decide (rest.length < s.low_watermark))

/-- Repeated try_get until it returns false, collecting the values in
the order removed; fuel bounds the iteration. -/
def drainAll (fuel : Nat) (s : QState α) : List α × QState α :=
  match fuel with
  | 0 => ([], s)
  | fuel + 1 =>
    match try_get s with
    | .empty => ([], s)
    | .got v s1 _ =>
      let p := drainAll fuel s1
      (v :: p.fst, p.snd)

/-- is_empty: throws Canceled on a canceled queue, otherwise reports
emptiness. -/
def is_empty (s : QState α) : Except CErr Bool :=
  if s.is_canceled then .error .canceled else .ok s.the_queue.isEmpty

/-- size: returns the length with no cancellation check. -/
def size (s : QState α) : Nat := s.the_queue.length

/-- set_watermarks. -/
def set_watermarks (high low : Nat) (s : QState α) : QState α :=
  { s with high_watermark := high, low_watermark := low }

/-- cancel_reset: clears the flag without touching the contents. -/
def cancel_reset (s : QState α) : QState α :=
  { s with is_canceled := false }

/-- cancel: throws Canceled if already canceled, else sets the flag
(and wakes all waiters on both condition variables). -/
def cancel (s : QState α) : Except CErr (QState α) :=
  if s.is_canceled then .error .canceled
  else .ok { s with is_canceled := true }

/-- Helper for the concrete scenarios: push a list of items in order,
failing if any push blocks or throws. -/
def pushAll : List α → QState α → Option (QState α)
  | [], s => some s
  | x :: xs, s =>
    match push x s with
    | .pushed s1 _ => pushAll xs s1
    | _ => none

/-- Helper for the concrete scenarios: n sequential blocking pops,
failing if any would block or throws; collects the popped values in
order. -/
def popN : Nat → QState α → Option (List α × QState α)
  | 0, s => some ([], s)
  | n + 1, s =>
    match pop s with
    | .popped v s1 _ => (popN n s1).map (fun p => (v :: p.fst, p.snd))
    | _ => none

end ConcurrentQueue

namespace ConcurrentSet

/-- State of a concurrent_set: the protected std::set, held as its
in-order element list (sorted strictly ascending, duplicate-free, so
the head is *begin()), and the cancellation flag. -/
structure SState (α : Type) where
  the_set : List α
  is_canceled : Bool
deriving Repr, DecidableEq

/-- A freshly constructed set: empty and open. -/
def mkSet (α : Type) : SState α :=
  { the_set := [], is_canceled := false }

/-- Ordered insertion into the sorted duplicate-free element list: the
effect of std::set::insert on the in-order view.  Inserting an element
already present leaves the list unchanged. -/
def setInsert [LinearOrder α] (x : α) : List α → List α
  | [] => [x]
  | y :: ys =>
    if x < y then x :: y :: ys
    else if x = y then y :: ys
    else y :: setInsert x ys

/-- insert: throws Canceled on a canceled set; otherwise inserts and
returns whether the size grew (before < after), i.e. whether the item
was not already present. -/
def insert [LinearOrder α] (item : α) (s : SState α) :
    Except CErr (Bool × SState α) :=
  if s.is_canceled then .error .canceled
  else
    let before := s.the_set.length
    let new_set := setInsert item s.the_set
    let after := new_set.length
    .ok (decide (before < after), { s with the_set := new_set })

/-- try_get: unlike the queue and stack containers, it throws Canceled
on a canceled set; otherwise false on an empty set, else it removes and
returns *begin(). -/
def try_get (s : SState α) : Except CErr (Option (α × SState α)) :=
  if s.is_canceled then .error .canceled
  else
    match s.the_set with
    | [] => .ok none
    | v :: rest => .ok (some (v, { s with the_set := rest }))

/-- Outcome of one evaluation of the blocking get at one observed
state. -/
inductive GetResult (α : Type) where
  | got (value : α) (s : SState α)
  | canceledErr
  | wouldBlock
deriving Repr, DecidableEq

/-- One evaluation of get: the nested wait loops throw Canceled as soon
as is_canceled is observed, whether or not the set is empty; while the
set is empty and not canceled the caller waits; else it removes and
returns *begin(). -/
def get (s : SState α) : GetResult α :=
  if s.is_canceled then .canceledErr
  else
    match s.the_set with
    | [] => .wouldBlock
    | v :: rest => .got v { s with the_set := rest }

/-- Guard of the condition wait in get:
while (the_set.empty() and not is_canceled). -/
def condWaitGuard (s : SState α) : Bool :=
  s.the_set.isEmpty && !s.is_canceled

/-- A blocking get viewed over the states observed at successive
wakeups of the_cond. -/
def getRun (wakeups : List (SState α)) : Option (GetResult α) :=
  (wakeups.find? (fun s => !(condWaitGuard s))).map get

/-- is_empty: throws Canceled on a canceled set, otherwise reports
emptiness. -/
def is_empty (s : SState α) : Except CErr Bool :=
  if s.is_canceled then .error .canceled else .ok s.the_set.isEmpty

/-- size: returns the length with no cancellation check. -/
def size (s : SState α) : Nat := s.the_set.length

/-- cancel_reset: clears the flag without touching the contents. -/
def cancel_reset (s : SState α) : SState α :=
  { s with is_canceled := false }

/-- cancel: throws Canceled if already canceled, else sets the flag. -/
def cancel (s : SState α) : Except CErr (SState α) :=
  if s.is_canceled then .error .canceled
  else .ok { s with is_canceled := true }

/-- Helper for the concrete scenario: insert a list of items in order,
collecting the Bool each insert returns; fails if any insert throws. -/
def insertList [LinearOrder α] : List α → SState α → Option (List Bool × SState α)
  | [], s => some ([], s)
  | x :: xs, s =>
    match insert x s with
    | .ok (b, s1) => (insertList xs s1).map (fun p => (b :: p.fst, p.snd))
    | .error _ => none

/-- Helper for the concrete scenario: n sequential blocking gets,
failing if any would block or throws. -/
def getN : Nat → SState α → Option (List α × SState α)
  | 0, s => some ([], s)
  | n + 1, s =>
    match get s with
    | .got v s1 => (getN n s1).map (fun p => (v :: p.fst, p.snd))
    | _ => none

end ConcurrentSet

namespace ConcurrentStack

/-- State of the watermark revision of concurrent_stack: the protected
std::stack (top of the stack at the head of the list), the cancellation
flag, the watermark pair and _blocked_pushers. -/
structure KState (α : Type) where
  the_stack : List α
  is_canceled : Bool
  high_watermark : Nat
  low_watermark : Nat
  blocked_pushers : Nat
deriving Repr, DecidableEq

/-- Outcome of the non-blocking try_pop. -/
inductive TryPopResult (α : Type) where
  /-- returned true; COMMON_POP_NOTIFY ran. -/
  | got (value : α) (s : KState α) (notified : Bool)
  /-- returned false: the stack was empty. -/
  | empty
deriving Repr, DecidableEq

/-- try_pop: no cancellation check at all; false on an empty stack,
otherwise it removes the top, even on a canceled stack. -/
def try_pop (s : KState α) : TryPopResult α :=
  match s.the_stack with
  | [] => .empty
  | v :: rest =>
    .got v { s with the_stack := rest }
      (decide (0 < s.blocked_pushers) && decide (rest.length < s.low_watermark))

/-- Outcome of one evaluation of the blocking pop at one observed
state. -/
inductive PopResult (α : Type) where
  | popped (value : α) (s : KState α) (notified : Bool)
  | canceledErr
  | wouldBlock
deriving Repr, DecidableEq

/-- One evaluation of pop: COMMON_COND_WAIT with DO_THING = throw
Canceled, then COMMON_POP_NOTIFY on the top of the stack. -/
def pop (s : KState α) : PopResult α :=
  if s.is_canceled then .canceledErr
  else
    match s.the_stack with
    | [] => .wouldBlock
    | v :: rest =>
      .popped v { s with the_stack := rest }
        (decide (0 < s.blocked_pushers) && decide (rest.length < s.low_watermark))

/-- is_empty: throws Canceled on a canceled stack, otherwise reports
emptiness. -/
def is_empty (s : KState α) : Except CErr Bool :=
  if s.is_canceled then .error .canceled else .ok s.the_stack.isEmpty

/-- size: returns the length with no cancellation check. -/
def size (s : KState α) : Nat := s.the_stack.length

end ConcurrentStack

namespace LegacyConcurrentStack

/-- State of the older revision of concurrent_stack (no watermarks):
the protected std::stack (top at the head) and the cancellation
flag. -/
structure KState (α : Type) where
  the_stack : List α
  is_canceled : Bool
deriving Repr, DecidableEq

/-- Outcome of one evaluation of the older pop at one observed
state. -/
inductive PopResult (α : Type) where
  /-- returned normally with the former top. -/
  | popped (value : α) (s : KState α)
  /-- fell through to value = the_stack.top() with the stack empty:
  undefined behavior. -/
  | undefinedTopRead
  /-- the stack is empty and not canceled: the caller waits. -/
  | wouldBlock
deriving Repr, DecidableEq

/-- One evaluation of the older pop.  Its wait loop exits via break
when is_canceled is observed, and control then falls through to
value = the_stack.top(); the_stack.pop().  On a canceled non-empty
stack this returns the top normally; on a canceled empty stack the
top() call is undefined behavior. -/
def pop (s : KState α) : PopResult α :=
  if s.is_canceled then
    match s.the_stack with
    | [] => .undefinedTopRead
    | v :: rest => .popped v { s with the_stack := rest }
  else
    match s.the_stack with
    | [] => .wouldBlock
    | v :: rest => .popped v { s with the_stack := rest }

end LegacyConcurrentStack

namespace AsyncCaller

/-- Engine-level DEFAULT_HIGH_WATER_MARK in async_method_caller.h. -/
def ENGINE_HIGH_WATER_MARK : Nat := 100

/-- Engine-level DEFAULT_LOW_WATER_MARK in async_method_caller.h. -/
def ENGINE_LOW_WATER_MARK : Nat := 10

/-- State of an async_caller: its concurrent_queue, the atomic counters,
the thread-pool size (_write_threads.size() = _thread_count), the
stopping flag, the engine watermark pair, and the observable effect of
the bound handler (_writer->*_do_write), recorded as the list of
elements it has been invoked on, in invocation order.  The timing
statistics (_drain_msec and friends) play no role in any claim and are
omitted; _busy_writers is incremented and then decremented around each
handler invocation, so a completed iteration leaves it unchanged. -/
structure ACState (α : Type) where
  store_queue : ConcurrentQueue.QState α
  pending : Nat
  busy_writers : Nat
  thread_count : Nat
  stopping_writers : Bool
  high_watermark : Nat
  low_watermark : Nat
  item_count : Nat
  flush_count : Nat
  handler_log : List α
deriving Repr, DecidableEq

/-- An engine as the constructor leaves it, after starting nthreads
worker threads (each start_writer_thread call increments
_thread_count). -/
def mkCaller (α : Type) (nthreads : Nat) : ACState α :=
  { store_queue := ConcurrentQueue.mkQueue α
    pending := 0
    busy_writers := 0
    thread_count := nthreads
    stopping_writers := false
    high_watermark := ENGINE_HIGH_WATER_MARK
    low_watermark := ENGINE_LOW_WATER_MARK
    item_count := 0
    flush_count := 0
    handler_log := [] }

/-- Outcome of one call to enqueue. -/
inductive EnqResult (α : Type) where
  /-- the element was enqueued (or written synchronously); entersStall
  reports whether the caller then enters the watermark sleep loop
  (_high_watermark < _store_queue.size()). -/
  | ok (s : ACState α) (entersStall : Bool)
  /-- threw RuntimeException: writer threads are being stopped.  The
  throw happens before any mutation, so the carried state is the input
  state unchanged. -/
  | illegalState (s : ACState α)
  /-- _store_queue.push threw Canceled; _pending had already been
  incremented, and the increment is not rolled back. -/
  | pushCanceled (s : ACState α)
  /-- _store_queue.push entered the queue-side watermark wait. -/
  | pushBlocked (s : ACState α)
deriving Repr, DecidableEq

/-- enqueue: the _stopping_writers check, then the zero-thread
synchronous path (_item_count++ and a direct handler call, touching
neither the queue, nor _pending, nor any thread), then the common
asynchronous path: _pending++, _store_queue.push(elt), _item_count++.
Whether the caller is one of the worker threads only selects whether
the _enqueue_mutex is taken around that mutation; the mutation itself
is identical in both branches. -/
def enqueue (is_worker : Bool) (elt : α) (s : ACState α) : EnqResult α :=
  if s.stopping_writers then .illegalState s
  else if s.thread_count = 0 then
    .ok { s with item_count := s.item_count + 1
                 handler_log := s.handler_log ++ [elt] } false
  else
    let s1 := { s with pending := s.pending + 1 }
    match ConcurrentQueue.push elt s1.store_queue with
    | .canceledErr => .pushCanceled s1
    | .blockedEntry q => .pushBlocked { s1 with store_queue := q }
    | .pushed q _ =>
      let s2 := { s1 with store_queue := q, item_count := s1.item_count + 1 }
      .ok s2 (decide (s2.high_watermark < ConcurrentQueue.size s2.store_queue))

/-- Outcome of start_writer_thread. -/
inductive StartResult (α : Type) where
  | ok (s : ACState α)
  /-- threw RuntimeException: writer threads are being stopped; the
  carried state is the input state unchanged (the throw precedes the
  push_back of a new thread). -/
  | illegalState (s : ACState α)
deriving Repr, DecidableEq

/-- start_writer_thread: under _write_mutex, throw if stopping,
otherwise start one more worker thread (_thread_count++). -/
def start_writer_thread (s : ACState α) : StartResult α :=
  if s.stopping_writers then .illegalState s
  else .ok { s with thread_count := s.thread_count + 1 }

/-- Outcome of one iteration of write_loop. -/
inductive WorkerStep (α : Type) where
  /-- value_pop returned an element; the handler was invoked on it and
  _pending was decremented (_busy_writers went up and back down). -/
  | processed (s : ACState α)
  /-- value_pop threw Canceled: the worker catches it and its thread
  exits. -/
  | exited
  /-- value_pop blocks on the empty open queue. -/
  | waiting
deriving Repr, DecidableEq

/-- One iteration of write_loop, evaluated at one observed state. -/
def write_loop_iteration (s : ACState α) : WorkerStep α :=
  match ConcurrentQueue.pop s.store_queue with
  | .canceledErr => .exited
  | .wouldBlock => .waiting
  | .popped v q _ =>
    .processed { s with store_queue := q
                        handler_log := s.handler_log ++ [v]
                        pending := s.pending - 1 }

/-- The sleep-poll loops (flush_queue and drain), modeled over the
sequence of engine states the sleeping thread observes at successive
polls: the loop returns at the first observed state satisfying the exit
condition, and never returns if none does. -/
def pollUntil (done : ACState α → Bool) (observed : List (ACState α)) :
    Option (ACState α) :=
  observed.find? done

/-- Exit condition of flush_queue: 0 < _store_queue.size() no longer
holds. -/
def flushQueueDone (s : ACState α) : Bool :=
  ConcurrentQueue.size s.store_queue = 0

/-- Exit condition of drain: 0 < _pending no longer holds. -/
def drainDone (s : ACState α) : Bool :=
  s.pending = 0

/-- barrier: takes the _enqueue_mutex (held for the whole call in both
branches), then compares the calling thread id against every pool
thread; a worker thread runs flush_queue (polling _store_queue.size()
down to zero, never consulting _pending), any other thread runs drain
(polling _pending down to zero). -/
def barrier (is_worker : Bool) (observed : List (ACState α)) :
    Option (ACState α) :=
  if is_worker then pollUntil flushQueueDone observed
  else pollUntil drainDone observed

/-- Steps of stop_writer_threads, as individual atomic actions.
Setting the stopping flag. -/
def stopSetStopping (s : ACState α) : ACState α :=
  { s with stopping_writers := true }

/-- stop_writer_threads: _store_queue.cancel(); every worker blocked in
value_pop is woken and exits through the Canceled handler. -/
def stopCancel (s : ACState α) : Except CErr (ACState α) :=
  (ConcurrentQueue.cancel s.store_queue).map
    (fun q => { s with store_queue := q })

/-- stop_writer_threads: join every worker thread and pop its handle
(_thread_count reaches 0). -/
def stopJoinAll (s : ACState α) : ACState α :=
  { s with thread_count := 0 }

/-- stop_writer_threads: _store_queue.cancel_reset(). -/
def stopCancelReset (s : ACState α) : ACState α :=
  { s with store_queue := ConcurrentQueue.cancel_reset s.store_queue }

/-- The body of the final single-threaded drain loop:
while (not is_empty) { elt = value_pop(); handler(elt); }.  Each
iteration removes the front and invokes the handler on it; _pending is
not touched anywhere in this loop. -/
def drainListLoop : List α → List α → List α
  | [], log => log
  | v :: rest, log => drainListLoop rest (log ++ [v])

/-- The final single-threaded drain of stop_writer_threads: empties the
queue, invoking the handler on each leftover element in FIFO order,
without decrementing _pending. -/
def stop_drain (s : ACState α) : ACState α :=
  { s with store_queue := { s.store_queue with the_queue := [] }
           handler_log := drainListLoop s.store_queue.the_queue s.handler_log }

/-- stop_writer_threads: the final _stopping_writers := false. -/
def stopClearStopping (s : ACState α) : ACState α :=
  { s with stopping_writers := false }

/-- Helper for C5: a sequence of enqueue calls, failing unless every
one returns normally without entering the stall loop. -/
def enqueueAll (is_worker : Bool) : List α → ACState α → Option (ACState α)
  | [], s => some s
  | x :: xs, s =>
    match enqueue is_worker x s with
    | .ok s1 _ => enqueueAll is_worker xs s1
    | _ => none

/-- A legal interleaving of one external producer calling enqueue 7
against stop_writer_threads, on an engine with one idle worker thread
blocked in value_pop.  Thread steps are listed in program order for
each thread; every guard records the check the source performs at that
step, and the run aborts (none) if any guard deviates from this
schedule.  The producer passes the stopping and thread-count checks,
the stopping thread then runs through cancel, join and cancel_reset,
the producer performs _pending++, push(7), _item_count++, and the
stopping thread finally drains the leftover element and clears the
flag. -/
def c1Interleaving : Option (ACState Nat) :=
  let s0 := mkCaller Nat 1
  -- producer: the _stopping_writers check is passed (flag still false)
  if s0.stopping_writers then none else
  -- producer: 0 == _thread_count is false, so the asynchronous path is
  -- chosen; the caller is not one of the worker threads
  if s0.thread_count = 0 then none else
  -- stop thread: _stopping_writers := true
  let s1 := stopSetStopping s0
  -- stop thread: the spin loop observes 0 == _pending and exits
  if s1.pending ≠ 0 then none else
  -- stop thread: _store_queue.cancel(); the idle worker's value_pop
  -- throws Canceled and its write_loop returns
  match stopCancel s1 with
  | .error _ => none
  | .ok s2 =>
    if write_loop_iteration s2 ≠ WorkerStep.exited then none else
    -- stop thread: join all workers
    let s3 := stopJoinAll s2
    -- stop thread: _store_queue.cancel_reset()
    let s4 := stopCancelReset s3
    -- producer: _pending++
    let s5 := { s4 with pending := s4.pending + 1 }
    -- producer: _store_queue.push(7) on the reopened queue succeeds
    match ConcurrentQueue.push 7 s5.store_queue with
    | .pushed q _ =>
      -- producer: _item_count++
      let s6 := { s5 with store_queue := q, item_count := s5.item_count + 1 }
      -- producer: the queue size 1 is not above the high watermark, so
      -- no stall; enqueue returns
      if s6.high_watermark < ConcurrentQueue.size s6.store_queue then none else
      -- stop thread: the final single-threaded drain, then
      -- _stopping_writers := false
      some (stopClearStopping (stop_drain s6))
    | _ => none

end AsyncCaller

namespace AsyncBuffer

/-- State of an async_buffer: its concurrent_set, the atomic counters,
the pool size, the stopping and stall flags, the engine watermark pair,
and the handler invocation log, as for async_caller. -/
structure ABState (α : Type) where
  store_set : ConcurrentSet.SState α
  pending : Nat
  busy_writers : Nat
  thread_count : Nat
  stopping_writers : Bool
  stall_writers : Bool
  high_watermark : Nat
  low_watermark : Nat
  item_count : Nat
  duplicate_count : Nat
  handler_log : List α
deriving Repr, DecidableEq

/-- An engine as the async_buffer constructor leaves it (DEFAULT
watermarks 100 and 10, stall off), after starting nthreads worker
threads. -/
def mkBuffer (α : Type) (nthreads : Nat) : ABState α :=
  { store_set := ConcurrentSet.mkSet α
    pending := 0
    busy_writers := 0
    thread_count := nthreads
    stopping_writers := false
    stall_writers := false
    high_watermark := 100
    low_watermark := 10
    item_count := 0
    duplicate_count := 0
    handler_log := [] }

/-- Outcome of do_insert. -/
inductive DoInsResult (α : Type) where
  | ok (s : ABState α)
  /-- _store_set.insert threw Canceled; _pending had already been
  incremented. -/
  | setCanceled (s : ABState α)
deriving Repr, DecidableEq

/-- do_insert: _pending++, then _store_set.insert(elt), _item_count++;
a duplicate increments _duplicate_count and rolls the speculative
_pending increment back. -/
def do_insert [LinearOrder α] (elt : α) (s : ABState α) : DoInsResult α :=
  let s1 := { s with pending := s.pending + 1 }
  match ConcurrentSet.insert elt s1.store_set with
  | .error _ => .setCanceled s1
  | .ok (added, st) =>
    let s2 := { s1 with store_set := st, item_count := s1.item_count + 1 }
    if added then .ok s2
    else .ok { s2 with duplicate_count := s2.duplicate_count + 1
                       pending := s2.pending - 1 }

/-- Outcome of one call to insert. -/
inductive InsResult (α : Type) where
  /-- the element was inserted (or written synchronously); entersStall
  reports whether the caller then enters the watermark sleep loop. -/
  | ok (s : ABState α) (entersStall : Bool)
  /-- threw RuntimeException: writer threads are being stopped; the
  carried state is the input state unchanged. -/
  | illegalState (s : ABState α)
  /-- _store_set.insert threw Canceled inside do_insert. -/
  | setCanceled (s : ABState α)
deriving Repr, DecidableEq

/-- insert: the _stopping_writers check, the zero-thread synchronous
path (_item_count++ and a direct handler call), then do_insert (the
worker-identity scan only selects whether the _enqueue_mutex is
taken). -/
def insert [LinearOrder α] (is_worker : Bool) (elt : α) (s : ABState α) :
    InsResult α :=
  if s.stopping_writers then .illegalState s
  else if s.thread_count = 0 then
    .ok { s with item_count := s.item_count + 1
                 handler_log := s.handler_log ++ [elt] } false
  else
    match do_insert elt s with
    | .setCanceled s1 => .setCanceled s1
    | .ok s1 => .ok s1 (decide (s1.high_watermark < ConcurrentSet.size s1.store_set))

/-- Outcome of start_writer_thread for async_buffer. -/
inductive StartResult (α : Type) where
  | ok (s : ABState α)
  | illegalState (s : ABState α)
deriving Repr, DecidableEq

/-- start_writer_thread: under _write_mutex, throw if stopping,
otherwise _thread_count++. -/
def start_writer_thread (s : ABState α) : StartResult α :=
  if s.stopping_writers then .illegalState s
  else .ok { s with thread_count := s.thread_count + 1 }

/-- Helper for C5: a sequence of insert calls, failing unless every one
returns normally without entering the stall loop. -/
def insertAll [LinearOrder α] (is_worker : Bool) :
    List α → ABState α → Option (ABState α)
  | [], s => some s
  | x :: xs, s =>
    match insert is_worker x s with
    | .ok s1 _ => insertAll is_worker xs s1
    | _ => none

end AsyncBuffer

/-! Concrete states used by the counterexamples and witnesses. -/

/-- A canceled non-empty queue (default watermarks, no blocked
pushers). -/
def c3QueueCanceled : ConcurrentQueue.QState Nat :=
  { the_queue := [4, 7]
    is_canceled := true
    high_watermark := ConcurrentQueue.DEFAULT_HIGH_WATER_MARK
    low_watermark := ConcurrentQueue.DEFAULT_LOW_WATER_MARK
    blocked_pushers := 0 }

/-- A canceled non-empty watermark-revision stack. -/
def c3StackCanceled : ConcurrentStack.KState Nat :=
  { the_stack := [9, 2]
    is_canceled := true
    high_watermark := 2147483647
    low_watermark := 2147483647 - 65536
    blocked_pushers := 0 }

/-- A canceled non-empty set. -/
def c3SetCanceled : ConcurrentSet.SState Nat :=
  { the_set := [1], is_canceled := true }

/-- Wakeup state for the C4 counterexample: high watermark 3, low
watermark 1, the queue holding 2 elements (strictly between the marks)
and one pusher still counted as blocked. -/
def c4Between : ConcurrentQueue.QState Nat :=
  { the_queue := [10, 11]
    is_canceled := false
    high_watermark := 3
    low_watermark := 1
    blocked_pushers := 1 }

/-- Wakeup state for the C4 witness: one element, below the high
watermark. -/
def c4Low : ConcurrentQueue.QState Nat :=
  { the_queue := [10]
    is_canceled := false
    high_watermark := 3
    low_watermark := 1
    blocked_pushers := 1 }

/-- The final engine state of the C1 interleaving: the pool joined, the
single accepted element 7 processed exactly once by the final drain,
and _pending left at 1. -/
def c1Final : AsyncCaller.ACState Nat :=
  { AsyncCaller.mkCaller Nat 1 with
    thread_count := 0
    pending := 1
    item_count := 1
    handler_log := [7] }

/-- A canceled queue for the C10 witness. -/
def c10Queue : ConcurrentQueue.QState Nat :=
  { the_queue := [3]
    is_canceled := true
    high_watermark := ConcurrentQueue.DEFAULT_HIGH_WATER_MARK
    low_watermark := ConcurrentQueue.DEFAULT_LOW_WATER_MARK
    blocked_pushers := 0 }

/-- A canceled set for the C10 witness. -/
def c10Set : ConcurrentSet.SState Nat :=
  { the_set := [2, 4], is_canceled := true }

/-- An engine state observed by a worker-thread barrier call: the
container is already empty while _pending is still positive. -/
def c6FlushObserved : AsyncCaller.ACState Nat :=
  { AsyncCaller.mkCaller Nat 2 with pending := 5 }

/-- An engine state observed by a non-worker barrier call: _pending is
zero. -/
def c6DrainObserved : AsyncCaller.ACState Nat :=
  AsyncCaller.mkCaller Nat 2

/-- An async_caller mid-stop (stopping flag set). -/
def c7Caller : AsyncCaller.ACState Nat :=
  { AsyncCaller.mkCaller Nat 2 with stopping_writers := true }

/-- An async_buffer mid-stop (stopping flag set). -/
def c7Buffer : AsyncBuffer.ABState Nat :=
  { AsyncBuffer.mkBuffer Nat 2 with stopping_writers := true }

/-- C8: on a fresh queue with no watermark configured (defaults), pushing
1,2,3,4,5 and then performing five sequential blocking pops returns
1,2,3,4,5 in FIFO order, and the final state is the empty open queue, so
size() is 0. -/
theorem queue_fifo_scenario :
    ((ConcurrentQueue.pushAll [1, 2, 3, 4, 5] (ConcurrentQueue.mkQueue Nat)).bind
        (fun q => ConcurrentQueue.popN 5 q)) =
      some ([1, 2, 3, 4, 5], ConcurrentQueue.mkQueue Nat) ∧
    ((ConcurrentQueue.pushAll [1, 2, 3, 4, 5] (ConcurrentQueue.mkQueue Nat)).bind
        (fun q => ConcurrentQueue.popN 5 q)).map
      (fun p => ConcurrentQueue.size p.snd) = some 0 := by
  constructor
  · rfl
  · rfl

/-- C9: on a fresh set with the default ordering, inserting 5, 3, 5, 1
returns true, true, false, true (false exactly for the duplicate 5,
which adds nothing); three subsequent blocking gets return 1, 3, 5 in
ascending order; the set is then the fresh empty open set. -/
theorem set_dedup_scenario :
    ((ConcurrentSet.insertList [5, 3, 5, 1] (ConcurrentSet.mkSet Nat)).bind
        (fun p => (ConcurrentSet.getN 3 p.snd).map
          (fun q => (p.fst, q.fst, q.snd)))) =
      some ([true, true, false, true], [1, 3, 5], ConcurrentSet.mkSet Nat) := by
  rfl

/-- C2 at the failing input: pop of the older concurrent_stack
revision, invoked on a canceled stack, does not raise the Canceled
error: on a canceled empty stack it falls through to an undefined
top() read, and on a canceled non-empty stack it returns the top
normally.  The queue, the set, and the watermark stack revision all
raise Canceled at this point. -/
theorem legacy_stack_pop_after_cancel :
    LegacyConcurrentStack.pop
        { the_stack := ([] : List Nat), is_canceled := true } =
      LegacyConcurrentStack.PopResult.undefinedTopRead ∧
    LegacyConcurrentStack.pop { the_stack := [5], is_canceled := true } =
      LegacyConcurrentStack.PopResult.popped 5
        { the_stack := [], is_canceled := true } := by
  exact ⟨rfl, rfl⟩

/-- C3 counterexample: try_get on a canceled non-empty set raises the
Canceled error instead of returning true and removing the front
element. -/
theorem set_try_get_canceled_counterexample :
    ConcurrentSet.try_get c3SetCanceled = Except.error CErr.canceled := by
  rfl

/-- Repeated try_get on a queue returns the queue contents in FIFO
order and leaves the queue empty, given fuel at least the queue
length; the cancellation flag is never examined and is preserved. -/
theorem drainAll_spec (fuel : Nat) :
    ∀ s : ConcurrentQueue.QState Nat, s.the_queue.length ≤ fuel →
      (ConcurrentQueue.drainAll fuel s).fst = s.the_queue ∧
      ((ConcurrentQueue.drainAll fuel s).snd).the_queue = [] ∧
      ((ConcurrentQueue.drainAll fuel s).snd).is_canceled = s.is_canceled := by
  induction fuel with
  | zero =>
    intro s hs
    have h0 : s.the_queue = [] := List.length_eq_zero.mp (Nat.le_zero.mp hs)
    simp [ConcurrentQueue.drainAll, h0]
  | succ n ih =>
    intro s hs
    obtain ⟨q, c, hw, lw, bp⟩ := s
    cases q with
    | nil => simp [ConcurrentQueue.drainAll, ConcurrentQueue.try_get]
    | cons v rest =>
      have hlen : rest.length ≤ n := by
        simp at hs
        omega
      have h := ih { the_queue := rest, is_canceled := c,
                     high_watermark := hw, low_watermark := lw,
                     blocked_pushers := bp } hlen
      simp [ConcurrentQueue.drainAll, ConcurrentQueue.try_get]
      exact ⟨h.1, h.2.1, h.2.2⟩

/-- C3 amended: the queue and stack non-blocking removals never raise
Canceled and keep working on canceled containers — removing the front
repeatedly until the container is empty, when they return false; the
set's try_get instead raises Canceled whenever the set is canceled. -/
theorem try_remove_canceled_amended
    (sq : ConcurrentQueue.QState Nat) (sk : ConcurrentStack.KState Nat)
    (ss : ConcurrentSet.SState Nat) (fuel : Nat)
    (hq : sq.is_canceled = true) (hk : sk.is_canceled = true)
    (hs : ss.is_canceled = true) (hfuel : sq.the_queue.length ≤ fuel) :
    (ConcurrentQueue.drainAll fuel sq).fst = sq.the_queue ∧
    ((ConcurrentQueue.drainAll fuel sq).snd).the_queue = [] ∧
    ConcurrentQueue.try_get ((ConcurrentQueue.drainAll fuel sq).snd) =
      ConcurrentQueue.TryGetResult.empty ∧
    (∀ v rest, sk.the_stack = v :: rest →
      ConcurrentStack.try_pop sk =
        ConcurrentStack.TryPopResult.got v { sk with the_stack := rest }
          (decide (0 < sk.blocked_pushers) &&
           decide (rest.length < sk.low_watermark))) ∧
    (sk.the_stack = [] →
      ConcurrentStack.try_pop sk = ConcurrentStack.TryPopResult.empty) ∧
    ConcurrentSet.try_get ss = Except.error CErr.canceled := by
  have hd := drainAll_spec fuel sq hfuel
  refine ⟨hd.1, hd.2.1, ?_, ?_, ?_, ?_⟩
  · simp [ConcurrentQueue.try_get, hd.2.1]
  · intro v rest hrest
    obtain ⟨st, c, hw, lw, bp⟩ := sk
    simp at hrest
    subst hrest
    simp [ConcurrentStack.try_pop]
  · intro hnil
    obtain ⟨st, c, hw, lw, bp⟩ := sk
    simp at hnil
    subst hnil
    simp [ConcurrentStack.try_pop]
  · simp [ConcurrentSet.try_get, hs]

/-- C3 amended, at concrete canceled containers. -/
theorem try_remove_canceled_amended_witness :
    (ConcurrentQueue.drainAll 2 c3QueueCanceled).fst = [4, 7] ∧
    ConcurrentSet.try_get c3SetCanceled = Except.error CErr.canceled ∧
    ConcurrentStack.try_pop c3StackCanceled =
      ConcurrentStack.TryPopResult.got 9
        { c3StackCanceled with the_stack := [2] } false := by
  have h := try_remove_canceled_amended c3QueueCanceled c3StackCanceled
    c3SetCanceled 2 rfl rfl rfl (by decide)
  exact ⟨h.1, h.2.2.2.2.2, h.2.2.2.1 9 [2] rfl⟩

/-- C4 counterexample: with high watermark 3 and low watermark 1, a
pusher that blocked (it is counted in _blocked_pushers) and is then
woken at a state where the queue holds 2 elements exits the watermark
wait loop and completes its push at size 2 — strictly between the low
and high watermarks, and without the size having dropped to the low
watermark. -/
theorem watermark_unblocks_between_marks :
    ConcurrentQueue.watermarkWait [c4Between] = some c4Between ∧
    ConcurrentQueue.resumePush 9 c4Between =
      ConcurrentQueue.PushResult.pushed
        { c4Between with the_queue := [10, 11, 9], blocked_pushers := 0 }
        false ∧
    c4Between.low_watermark < c4Between.the_queue.length ∧
    c4Between.the_queue.length < c4Between.high_watermark := by
  refine ⟨rfl, rfl, by decide, by decide⟩

/-- C4 amended: a blocked producer resumes at the first wakeup at which
the wait-loop guard fails, that is as soon as the observed size is
below the high watermark (or the queue is canceled) — the low
watermark does not constrain the resumption itself.  The hysteresis
lives only in the notifications: a pop wakes the blocked pushers
(should_notify) exactly when some pusher is blocked and the post-pop
size is below the low watermark. -/
theorem watermark_resume_and_notify
    (wakeups : List (ConcurrentQueue.QState Nat))
    (s : ConcurrentQueue.QState Nat)
    (hresume : ConcurrentQueue.watermarkWait wakeups = some s) :
    (s.is_canceled = true ∨ s.the_queue.length < s.high_watermark) ∧
    (∀ (t : ConcurrentQueue.QState Nat) v t1,
      ConcurrentQueue.pop t = ConcurrentQueue.PopResult.popped v t1 true →
        0 < t.blocked_pushers ∧ t1.the_queue.length < t.low_watermark) := by
  constructor
  · cases hcc : s.is_canceled with
    | true => exact Or.inl rfl
    | false =>
      right
      have hfind := List.find?_some hresume
      simp [ConcurrentQueue.pushWaitGuard, hcc] at hfind
      omega
  · intro t v t1 hpop
    obtain ⟨q, c, hw, lw, bp⟩ := t
    cases c with
    | true => simp [ConcurrentQueue.pop] at hpop
    | false =>
      cases q with
      | nil => simp [ConcurrentQueue.pop] at hpop
      | cons w rest =>
        simp [ConcurrentQueue.pop] at hpop
        obtain ⟨hv, ht1, hb⟩ := hpop
        subst ht1
        simpa using hb

/-- C4 amended, at a concrete wakeup below the high watermark. -/
theorem watermark_resume_and_notify_witness :
    (c4Low.is_canceled = true ∨
      c4Low.the_queue.length < c4Low.high_watermark) ∧
    (∀ (t : ConcurrentQueue.QState Nat) v t1,
      ConcurrentQueue.pop t = ConcurrentQueue.PopResult.popped v t1 true →
        0 < t.blocked_pushers ∧ t1.the_queue.length < t.low_watermark) :=
  watermark_resume_and_notify [c4Low] c4Low (by decide)

/-- Zero-thread async_caller: each enqueue performs exactly one
synchronous handler call and bumps _item_count, leaving the queue,
_pending, _busy_writers and the pool untouched. -/
theorem enqueueAll_zero_threads (xs : List Nat) :
    ∀ s : AsyncCaller.ACState Nat,
      s.thread_count = 0 → s.stopping_writers = false →
      ∃ s1, AsyncCaller.enqueueAll false xs s = some s1 ∧
        s1.handler_log = s.handler_log ++ xs ∧
        s1.item_count = s.item_count + xs.length ∧
        s1.store_queue = s.store_queue ∧
        s1.pending = s.pending ∧
        s1.busy_writers = s.busy_writers ∧
        s1.thread_count = 0 ∧
        s1.stopping_writers = false := by
  induction xs with
  | nil =>
    intro s h0 hstop
    exact ⟨s, rfl, by simp, by simp, rfl, rfl, rfl, h0, hstop⟩
  | cons x xs ih =>
    intro s h0 hstop
    have hstep : AsyncCaller.enqueue false x s =
        AsyncCaller.EnqResult.ok
          { s with item_count := s.item_count + 1
                   handler_log := s.handler_log ++ [x] } false := by
      simp [AsyncCaller.enqueue, h0, hstop]
    obtain ⟨s1, h1, hlog, hcnt, hqu, hp, hb, ht, hsw⟩ :=
      ih { s with item_count := s.item_count + 1
                  handler_log := s.handler_log ++ [x] }
        (by simpa using h0) (by simpa using hstop)
    have hcnt' : s1.item_count = s.item_count + 1 + xs.length := hcnt
    have hlog' : s1.handler_log = (s.handler_log ++ [x]) ++ xs := hlog
    refine ⟨s1, ?_, ?_, ?_, hqu, hp, hb, ht, hsw⟩
    · simp [AsyncCaller.enqueueAll, hstep]
      exact h1
    · rw [hlog']
      simp
    · rw [hcnt']
      simp
      omega

/-- Zero-thread async_buffer: each insert performs exactly one
synchronous handler call and bumps _item_count, leaving the set,
_pending, _busy_writers and the pool untouched. -/
theorem insertAll_zero_threads (ys : List Nat) :
    ∀ t : AsyncBuffer.ABState Nat,
      t.thread_count = 0 → t.stopping_writers = false →
      ∃ t1, AsyncBuffer.insertAll false ys t = some t1 ∧
        t1.handler_log = t.handler_log ++ ys ∧
        t1.item_count = t.item_count + ys.length ∧
        t1.store_set = t.store_set ∧
        t1.pending = t.pending ∧
        t1.busy_writers = t.busy_writers ∧
        t1.thread_count = 0 ∧
        t1.stopping_writers = false := by
  induction ys with
  | nil =>
    intro t h0 hstop
    exact ⟨t, rfl, by simp, by simp, rfl, rfl, rfl, h0, hstop⟩
  | cons y ys ih =>
    intro t h0 hstop
    have hstep : AsyncBuffer.insert false y t =
        AsyncBuffer.InsResult.ok
          { t with item_count := t.item_count + 1
                   handler_log := t.handler_log ++ [y] } false := by
      simp [AsyncBuffer.insert, h0, hstop]
    obtain ⟨t1, h1, hlog, hcnt, hqu, hp, hb, hth, hsw⟩ :=
      ih { t with item_count := t.item_count + 1
                  handler_log := t.handler_log ++ [y] }
        (by simpa using h0) (by simpa using hstop)
    have hcnt' : t1.item_count = t.item_count + 1 + ys.length := hcnt
    have hlog' : t1.handler_log = (t.handler_log ++ [y]) ++ ys := hlog
    refine ⟨t1, ?_, ?_, ?_, hqu, hp, hb, hth, hsw⟩
    · simp [AsyncBuffer.insertAll, hstep]
      exact h1
    · rw [hlog']
      simp
    · rw [hcnt']
      simp
      omega

/-- C5: an engine constructed with zero worker threads performs every
enqueue (async_caller) and insert (async_buffer) as a synchronous
handler call on the calling thread: N calls produce exactly N handler
invocations in call order, each completed before its call returns,
increment _item_count once per call, and leave the container, the
_pending and _busy_writers counters, and the (empty) pool untouched. -/
theorem zero_thread_engine_synchronous (xs ys : List Nat)
    (s : AsyncCaller.ACState Nat) (t : AsyncBuffer.ABState Nat)
    (hs0 : s.thread_count = 0) (hss : s.stopping_writers = false)
    (ht0 : t.thread_count = 0) (hts : t.stopping_writers = false) :
    (∃ s1, AsyncCaller.enqueueAll false xs s = some s1 ∧
      s1.handler_log = s.handler_log ++ xs ∧
      s1.item_count = s.item_count + xs.length ∧
      s1.store_queue = s.store_queue ∧
      s1.pending = s.pending ∧
      s1.busy_writers = s.busy_writers ∧
      s1.thread_count = 0 ∧
      s1.stopping_writers = false) ∧
    (∃ t1, AsyncBuffer.insertAll false ys t = some t1 ∧
      t1.handler_log = t.handler_log ++ ys ∧
      t1.item_count = t.item_count + ys.length ∧
      t1.store_set = t.store_set ∧
      t1.pending = t.pending ∧
      t1.busy_writers = t.busy_writers ∧
      t1.thread_count = 0 ∧
      t1.stopping_writers = false) :=
  ⟨enqueueAll_zero_threads xs s hs0 hss, insertAll_zero_threads ys t ht0 hts⟩

/-- C5 at concrete zero-thread engines. -/
theorem zero_thread_engine_synchronous_witness :
    (AsyncCaller.enqueueAll false [1, 2, 3]
        (AsyncCaller.mkCaller Nat 0)).isSome = true ∧
    (AsyncBuffer.insertAll false [4, 5]
        (AsyncBuffer.mkBuffer Nat 0)).isSome = true := by
  obtain ⟨⟨s1, h1, _⟩, ⟨t1, h2, _⟩⟩ :=
    zero_thread_engine_synchronous [1, 2, 3] [4, 5]
      (AsyncCaller.mkCaller Nat 0) (AsyncBuffer.mkBuffer Nat 0)
      rfl rfl rfl rfl
  constructor
  · rw [h1]
    rfl
  · rw [h2]
    rfl

/-- C6: barrier from a worker thread performs only the flush path,
whose exit condition is the container size reaching zero — _pending is
never consulted, and the poll can return while _pending is still
positive (third conjunct); barrier from any non-worker thread performs
drain, returning only at a state where _pending is zero. -/
theorem barrier_worker_flush_nonworker_drain :
    (∀ (obs : List (AsyncCaller.ACState Nat)) t,
      AsyncCaller.barrier true obs = some t →
        ConcurrentQueue.size t.store_queue = 0) ∧
    (∀ (obs : List (AsyncCaller.ACState Nat)) t,
      AsyncCaller.barrier false obs = some t → t.pending = 0) ∧
    (AsyncCaller.barrier true [c6FlushObserved] = some c6FlushObserved ∧
      0 < c6FlushObserved.pending) := by
  refine ⟨?_, ?_, by decide, by decide⟩
  · intro obs t h
    simp [AsyncCaller.barrier, AsyncCaller.pollUntil] at h
    have hfind := List.find?_some h
    simpa [AsyncCaller.flushQueueDone] using hfind
  · intro obs t h
    simp [AsyncCaller.barrier, AsyncCaller.pollUntil] at h
    have hfind := List.find?_some h
    simpa [AsyncCaller.drainDone] using hfind

/-- C6 at concrete observed states. -/
theorem barrier_worker_flush_nonworker_drain_witness :
    ConcurrentQueue.size c6FlushObserved.store_queue = 0 ∧
    c6DrainObserved.pending = 0 := by
  have h := barrier_worker_flush_nonworker_drain
  exact ⟨h.1 [c6FlushObserved] c6FlushObserved (by decide),
         h.2.1 [c6DrainObserved] c6DrainObserved (by decide)⟩

/-- C7: while _stopping_writers is set, enqueue and
start_writer_thread on async_caller, and insert and
start_writer_thread on async_buffer, throw the RuntimeException before
performing any mutation: the illegal-state outcome carries the input
state unchanged — no element enqueued, no counter incremented, no
thread started. -/
theorem stopping_rejects_mutations
    (s : AsyncCaller.ACState Nat) (t : AsyncBuffer.ABState Nat)
    (iw jw : Bool) (x y : Nat)
    (hs : s.stopping_writers = true) (ht : t.stopping_writers = true) :
    AsyncCaller.enqueue iw x s = AsyncCaller.EnqResult.illegalState s ∧
    AsyncCaller.start_writer_thread s =
      AsyncCaller.StartResult.illegalState s ∧
    AsyncBuffer.insert jw y t = AsyncBuffer.InsResult.illegalState t ∧
    AsyncBuffer.start_writer_thread t =
      AsyncBuffer.StartResult.illegalState t := by
  simp [AsyncCaller.enqueue, AsyncCaller.start_writer_thread,
        AsyncBuffer.insert, AsyncBuffer.start_writer_thread, hs, ht]

/-- C7 at concrete mid-stop engines. -/
theorem stopping_rejects_mutations_witness :
    AsyncCaller.enqueue false 1 c7Caller =
      AsyncCaller.EnqResult.illegalState c7Caller ∧
    AsyncBuffer.insert false 2 c7Buffer =
      AsyncBuffer.InsResult.illegalState c7Buffer := by
  have h := stopping_rejects_mutations c7Caller c7Buffer false false 1 2 rfl rfl
  exact ⟨h.1, h.2.2.1⟩

/-- C1 at the failing interleaving: the run accepts exactly one
element (7, whose push reached the container), and it is processed
exactly once — by the final single-threaded drain of
stop_writer_threads; yet _pending finishes at 1, not 0, because that
drain loop never decrements _pending.  A subsequent
stop_writer_threads would then spin forever on 0 < _pending. -/
theorem stop_drain_leaves_pending_nonzero :
    AsyncCaller.c1Interleaving = some c1Final ∧
    c1Final.handler_log = [7] ∧
    c1Final.item_count = 1 ∧
    c1Final.store_queue.the_queue = [] ∧
    c1Final.stopping_writers = false ∧
    c1Final.pending = 1 := by
  refine ⟨by decide, rfl, rfl, rfl, rfl, rfl⟩

/-- C10: on a canceled queue or set, is_empty raises the Canceled
error while size returns normally; after cancel_reset, is_empty
returns normally again. -/
theorem canceled_is_empty_throws_size_returns
    (sq : ConcurrentQueue.QState Nat) (ss : ConcurrentSet.SState Nat)
    (hq : sq.is_canceled = true) (hs : ss.is_canceled = true) :
    ConcurrentQueue.is_empty sq = Except.error CErr.canceled ∧
    ConcurrentQueue.size sq = sq.the_queue.length ∧
    ConcurrentSet.is_empty ss = Except.error CErr.canceled ∧
    ConcurrentSet.size ss = ss.the_set.length ∧
    ConcurrentQueue.is_empty (ConcurrentQueue.cancel_reset sq) =
      Except.ok sq.the_queue.isEmpty ∧
    ConcurrentSet.is_empty (ConcurrentSet.cancel_reset ss) =
      Except.ok ss.the_set.isEmpty := by
  simp [ConcurrentQueue.is_empty, ConcurrentSet.is_empty,
        ConcurrentQueue.size, ConcurrentSet.size,
        ConcurrentQueue.cancel_reset, ConcurrentSet.cancel_reset, hq, hs]

/-- C10 at concrete canceled containers. -/
theorem canceled_is_empty_throws_size_returns_witness :
    ConcurrentQueue.is_empty c10Queue = Except.error CErr.canceled ∧
    ConcurrentSet.is_empty c10Set = Except.error CErr.canceled ∧
    ConcurrentQueue.size c10Queue = 1 ∧
    ConcurrentSet.size c10Set = 2 := by
  have h := canceled_is_empty_throws_size_returns c10Queue c10Set rfl rfl
  exact ⟨h.1, h.2.2.1, h.2.1, h.2.2.2.1⟩

end CogUtil
